import Mathlib

/-!
Shallow embedding of `demodata_sender/generator.py` (factory-telemetry
snapshot synthesizer) and proofs about its specification claims.

Modelling conventions:
* Python floats are modelled as rationals (`ℚ`); the decimal literals of the
  source are taken at face value.
* `random.Random` is modelled as a deterministic stream of raw draws
  (`Rng.stream : Nat → ℚ`) together with a cursor.  Each primitive
  (`random()`, `randint`, `uniform`, `choice`, `normalvariate`) consumes one
  stream value.  `randint`/`choice` map the raw value into their range and
  clamp it there, which encodes the documented contract of those primitives
  (a result always inside the requested range) while staying total.
* `random.Random(seed)` (Mersenne-Twister seeding) and `hashlib.sha256` are
  not reimplemented; every definition that needs them is parametrised by a
  seeding function `seedRng : Nat → Rng` and a hash `sha : String → Nat`.
* Timestamps are JST wall-clock values: a calendar date plus a time of day in
  seconds (`ℚ`, so sub-second precision is representable).  The source
  compares `datetime.time` values attached to the fixed zone `Asia/Tokyo`
  (no DST), which is exactly wall-clock comparison.
-/

/-- Deterministic random source: a stream of raw draws and a cursor.
Two sources seeded equally have the same stream and cursor. -/
structure Rng where
  stream : Nat → ℚ
  idx : Nat

/-- Consume one raw draw. -/
def Rng.next (r : Rng) : ℚ × Rng :=
  (r.stream r.idx, ⟨r.stream, r.idx + 1⟩)

/-- Embeds `rng.random()`: one uniform draw in [0,1) (raw stream value). -/
def pyRandom (r : Rng) : ℚ × Rng := r.next

/-- Embeds `rng.randint(a, b)`: an integer in [a, b], derived from one draw and
clamped into the contract range. -/
def pyRandint (a b : Nat) (r : Rng) : Nat × Rng :=
  let (u, r') := r.next
  (a + min (b - a) (⌊u * ((b : ℚ) - (a : ℚ) + 1)⌋.toNat), r')

/-- Embeds `rng.uniform(a, b) = a + (b-a) * random()`. -/
def pyUniform (a b : ℚ) (r : Rng) : ℚ × Rng :=
  let (u, r') := r.next
  (a + u * (b - a), r')

/-- Embeds `rng.choice(xs)`: an element of `xs`, selected by one draw, index clamped
into range (`d` is a fallback for the empty list, never hit at call sites). -/
def pyChoice {α : Type} (xs : List α) (d : α) (r : Rng) : α × Rng :=
  let (u, r') := r.next
  (xs.getD (min (xs.length - 1) (⌊u * (xs.length : ℚ)⌋.toNat)) d, r')

/-- Embeds `rng.normalvariate(mu, sigma)`: a deterministic sample derived from one
draw; the Gaussian shaping is abstracted (the sample value is `mu + sigma*u`),
which preserves determinism and draw-order, the only properties used here. -/
def pyNormalvariate (mu sigma : ℚ) (r : Rng) : ℚ × Rng :=
  let (u, r') := r.next
  (mu + sigma * u, r')

/-- Python `int(x)`: truncation toward zero. -/
def pyIntTrunc (q : ℚ) : ℤ :=
  if 0 ≤ q then ⌊q⌋ else -⌊-q⌋

/-- Round half to even (Python's `round` tie-breaking) to an integer. -/
def roundHalfEven (x : ℚ) : ℤ :=
  let f := ⌊x⌋
  let frac := x - (f : ℚ)
  if frac < 1/2 then f
  else if 1/2 < frac then f + 1
  else if f % 2 = 0 then f else f + 1

/-- Python `round(x, n)` on the rational model. -/
def pyRound (q : ℚ) (n : Nat) : ℚ :=
  (roundHalfEven (q * 10 ^ n) : ℚ) / 10 ^ n

/-- A JST calendar date. -/
structure Date where
  year : Nat
  month : Nat
  day : Nat
deriving DecidableEq

/-- Zero-padded decimal rendering. -/
def padNum (width n : Nat) : String :=
  let s := toString n
  String.mk (List.replicate (width - s.length) '0') ++ s

/-- Embeds `date.isoformat()` / `str(date)`: "YYYY-MM-DD". -/
def Date.isoformat (d : Date) : String :=
  padNum 4 d.year ++ "-" ++ padNum 2 d.month ++ "-" ++ padNum 2 d.day

/-- A JST wall-clock timestamp: calendar date plus time of day in seconds. -/
structure DateTime where
  date : Date
  tod : ℚ
deriving DecidableEq

/-- Embeds `time(h, m)` as seconds of day. -/
def timeVal (h m : Nat) : ℚ := h * 3600 + m * 60

/-- Embeds `jst_time_in_range`: half-open wall-clock window, wrapping midnight when
`start > end` (the source compares `datetime.time` values). -/
def jst_time_in_range (tod : ℚ) (start stop : ℚ) : Bool :=
  if start ≤ stop then decide (start ≤ tod ∧ tod < stop)
  else decide (start ≤ tod ∨ tod < stop)

def is_lunch_break (t : DateTime) : Bool :=
  jst_time_in_range t.tod (timeVal 12 0) (timeVal 12 15)

def is_off_shift (t : DateTime) : Bool :=
  jst_time_in_range t.tod (timeVal 18 0) (timeVal 9 0)

def is_startup (t : DateTime) : Bool :=
  jst_time_in_range t.tod (timeVal 9 0) (timeVal 9 30)

def is_normal_morning (t : DateTime) : Bool :=
  jst_time_in_range t.tod (timeVal 9 30) (timeVal 12 0)

def is_late_morning (t : DateTime) : Bool :=
  jst_time_in_range t.tod (timeVal 12 15) (timeVal 13 0)

def is_afternoon (t : DateTime) : Bool :=
  jst_time_in_range t.tod (timeVal 13 0) (timeVal 15 30)

/-- Embeds `LineConfig`: frozen dataclass, no validation of the ranges. -/
structure LineConfig where
  line_id : String
  line_name : String
  cycle_time_range_ms : Nat × Nat
  ng_rate : ℚ
  temp_range_c : ℚ × ℚ
  power_range_w : Nat × Nat
  vibration_range : ℚ × ℚ
deriving DecidableEq

def cfgL1 : LineConfig :=
  { line_id := "L1", line_name := "部品製造",
    cycle_time_range_ms := (2500, 3500), ng_rate := 3/1000,
    temp_range_c := (35, 45), power_range_w := (700, 1200),
    vibration_range := (5/100, 25/100) }

def cfgL2 : LineConfig :=
  { line_id := "L2", line_name := "組立",
    cycle_time_range_ms := (4500, 6500), ng_rate := 8/1000,
    temp_range_c := (30, 40), power_range_w := (500, 900),
    vibration_range := (5/100, 25/100) }

def cfgL3 : LineConfig :=
  { line_id := "L3", line_name := "検査",
    cycle_time_range_ms := (6000, 9000), ng_rate := 12/1000,
    temp_range_c := (28, 38), power_range_w := (300, 600),
    vibration_range := (5/100, 25/100) }

/-- Embeds `LINE_CONFIGS.values()` in insertion order. -/
def LINE_CONFIGS : List LineConfig := [cfgL1, cfgL2, cfgL3]

/-- Embeds `MACHINE_IDS = [f"M0{index}" for index in range(1, 7)]`. -/
def MACHINE_IDS : List String := ["M01", "M02", "M03", "M04", "M05", "M06"]

def MATERIAL_REFILL_TARGETS : List String := ["M02", "M03"]

def ALARM_CODES : List String := ["Q001", "Q002", "M001", "T001", "V001"]

def ALARM_SEVERITY_WEIGHTS : List (Nat × ℚ) := [(1, 6/10), (2, 3/10), (3, 1/10)]

def INTERVAL_WEIGHTS : List (Nat × ℚ) :=
  [(60, 70/100), (30, 10/100), (120, 10/100), (10, 5/100), (300, 4/100), (600, 1/100)]

/-- The cumulative-sum walk shared by `select_interval_sec` and
`weighted_choice` in the source: return the first option whose cumulative
weight reaches the roll, `none` when the walk falls off the end. -/
def walkCumulative {α : Type} (roll : ℚ) : List (α × ℚ) → ℚ → Option α
  | [], _ => none
  | (v, w) :: rest, cum =>
      if roll ≤ cum + w then some v else walkCumulative roll rest (cum + w)

/-- Embeds `options[-1][0]` (fallback value of the walks; `d` covers the empty list,
which raises in Python and is never reached at call sites). -/
def lastValue {α : Type} (options : List (α × ℚ)) (d : α) : α :=
  match options.getLast? with
  | some (v, _) => v
  | none => d

/-- Embeds `select_interval_sec`. -/
def select_interval_sec (rng : Rng) : Nat × Rng :=
  let (roll, r') := pyRandom rng
  ((walkCumulative roll INTERVAL_WEIGHTS 0).getD (lastValue INTERVAL_WEIGHTS 0), r')

/-- Embeds `weighted_choice`. -/
def weighted_choice {α : Type} (rng : Rng) (options : List (α × ℚ)) (d : α) :
    α × Rng :=
  let (roll, r') := pyRandom rng
  ((walkCumulative roll options 0).getD (lastValue options d), r')

/-- Embeds `seed_from_string`: sha256 hex digest read as an integer, mod 2^32.
The hash itself is the parameter `sha`. -/
def seed_from_string (sha : String → Nat) (s : String) : Nat :=
  sha s % 2 ^ 32

/-- The per-day refill parameters drawn inside `is_material_refill_window`:
a dedicated rng seeded from `"{date}-{machineId}-refill"` yields the start
offset (minutes after 15:30) and the duration (minutes). -/
def refill_window (sha : String → Nat) (seedRng : Nat → Rng) (d : Date)
    (machine_id : String) : Nat × Nat :=
  let seed := seed_from_string sha (d.isoformat ++ "-" ++ machine_id ++ "-refill")
  let r0 := seedRng seed
  let startDraw := pyRandint 0 2 r0
  let durationDraw := pyRandint 3 7 startDraw.2
  (startDraw.1, durationDraw.1)

/-- Embeds `is_material_refill_window`: the window starts at 15:30 plus the offset
and lasts for the duration; comparisons are same-day wall-clock. -/
def is_material_refill_window (sha : String → Nat) (seedRng : Nat → Rng)
    (current : DateTime) (machine_id : String) : Bool :=
  if machine_id ∈ MATERIAL_REFILL_TARGETS then
    let w := refill_window sha seedRng current.date machine_id
    let startSec : ℚ := timeVal 15 30 + w.1 * 60
    let stopSec : ℚ := startSec + w.2 * 60
    decide (startSec ≤ current.tod ∧ current.tod < stopSec)
  else false

/-- An alarm event as built by `choose_alarm`. -/
structure AlarmEvent where
  alarmCode : String
  severity : Nat
  durationSec : Nat
deriving DecidableEq

/-- Embeds `choose_alarm`. -/
def choose_alarm (rng : Rng) (interval_sec : Nat) : Option AlarmEvent × Rng :=
  let per_second_rate : ℚ := (2/10) / 86400
  let probability := per_second_rate * interval_sec
  let (u, r1) := pyRandom rng
  if probability ≤ u then (none, r1)
  else
    let (alarm_code, r2) := pyChoice ALARM_CODES "Q001" r1
    let (severity, r3) := weighted_choice r2 ALARM_SEVERITY_WEIGHTS 3
    let (duration_sec, r4) := pyRandint 30 120 r3
    (some ⟨alarm_code, severity, duration_sec⟩, r4)

/-- The fixed status→reason table used by `weighted_status`. -/
def statusReasonTable (s : String) : String :=
  if s = "RUN" then "normal_run"
  else if s = "IDLE" then "end_of_shift"
  else if s = "STOP" then "material_wait"
  else if s = "CHANGEOVER" then "changeover"
  else "planned_maintenance"

/-- Embeds `weighted_status`. -/
def weighted_status (rng : Rng) (options : List (String × ℚ)) :
    (String × String) × Rng :=
  let (status, r') := weighted_choice rng options "MAINT"
  ((status, statusReasonTable status), r')

/-- Embeds `select_status`. -/
def select_status (sha : String → Nat) (seedRng : Nat → Rng) (rng : Rng)
    (current : DateTime) (machine_id : String) : (String × String) × Rng :=
  if is_lunch_break current then (("IDLE", "lunch_break"), rng)
  else if is_off_shift current then
    let (u, r') := pyRandom rng
    if u < 1/10 then (("RUN", "normal_run"), r')
    else (("IDLE", "off_shift"), r')
  else if is_material_refill_window sha seedRng current machine_id then
    (("STOP", "material_refill"), rng)
  else if is_startup current then
    weighted_status rng
      [("RUN", 6/10), ("IDLE", 2/10), ("STOP", 1/10),
       ("CHANGEOVER", 5/100), ("MAINT", 5/100)]
  else if is_normal_morning current || is_afternoon current then
    weighted_status rng
      [("RUN", 85/100), ("IDLE", 5/100), ("STOP", 5/100),
       ("CHANGEOVER", 3/100), ("MAINT", 2/100)]
  else if is_late_morning current then
    weighted_status rng
      [("RUN", 7/10), ("IDLE", 2/10), ("STOP", 5/100),
       ("CHANGEOVER", 3/100), ("MAINT", 2/100)]
  else
    weighted_status rng
      [("RUN", 8/10), ("IDLE", 1/10), ("STOP", 5/100),
       ("CHANGEOVER", 3/100), ("MAINT", 2/100)]

/-- Embeds `compute_cycle_time_ms`.  `int((max_ms - min_ms) * 0.3)` is `3*(max-min)/10`
on naturals; `max(500, min_ms - padding)` agrees with truncated subtraction
because the result is clamped to at least 500 either way. -/
def compute_cycle_time_ms (rng : Rng) (line : LineConfig) (current : DateTime) :
    Nat × Rng :=
  let min_ms := line.cycle_time_range_ms.1
  let max_ms := line.cycle_time_range_ms.2
  if is_startup current then
    let range_padding := 3 * (max_ms - min_ms) / 10
    pyRandint (max 500 (min_ms - range_padding)) (max_ms + range_padding) rng
  else
    pyRandint min_ms max_ms rng

/-- The defect-count loop of `generate_counts`:
`sum(1 for _ in range(n) if rng.random() < ng_rate)`. -/
def countNg (ng_rate : ℚ) : Nat → Rng → Nat × Rng
  | 0, r => (0, r)
  | n + 1, r =>
      let (u, r1) := pyRandom r
      let (c, r2) := countNg ng_rate n r1
      ((if u < ng_rate then 1 else 0) + c, r2)

/-- Embeds `generate_counts`: returns `(good_count, ng_count)`.
`max(0, int(...))` is `Int.toNat` of the truncation; `max(sample - ng, 0)`
is truncated natural subtraction. -/
def generate_counts (rng : Rng) (interval_sec : Nat) (cycle_time_ms : Nat)
    (ng_rate : ℚ) : (Nat × Nat) × Rng :=
  let expected_cycles : ℚ := interval_sec * 1000 / cycle_time_ms
  let (g, r1) := pyNormalvariate expected_cycles (expected_cycles * (5/100)) rng
  let sample_cycles : Nat := (pyIntTrunc g).toNat
  let (ng_count, r2) := countNg ng_rate sample_cycles r1
  ((sample_cycles - ng_count, ng_count), r2)

/-- Sensor readings of one machine record. -/
structure Sensors where
  temperatureC : ℚ
  powerW : ℚ
  vibration : ℚ
deriving DecidableEq

/-- Embeds `generate_sensors`. -/
def generate_sensors (rng : Rng) (line : LineConfig) (status : String)
    (alarm : Option AlarmEvent) : Sensors × Rng :=
  let tmin := line.temp_range_c.1
  let tmax := line.temp_range_c.2
  let pmin : ℚ := line.power_range_w.1
  let pmax : ℚ := line.power_range_w.2
  let vmin := line.vibration_range.1
  let vmax := line.vibration_range.2
  let base :=
    if status = "RUN" then
      let (t, r1) := pyUniform tmin tmax rng
      let (p, r2) := pyUniform pmin pmax r1
      let (v, r3) := pyUniform vmin vmax r2
      ((t, p, v), r3)
    else
      let (t, r1) := pyUniform 25 tmin rng
      let (p, r2) := pyUniform (pmin * (2/10)) (pmax * (4/10)) r1
      let (v, r3) := pyUniform 0 (3/100) r2
      ((t, p, v), r3)
  let t0 := base.1.1
  let p0 := base.1.2.1
  let v0 := base.1.2.2
  let r3 := base.2
  let final :=
    match alarm with
    | some a =>
        if a.alarmCode = "T001" then
          let (t, r) := pyUniform (tmax + 5) (tmax + 10) r3
          ((t, p0, v0), r)
        else if a.alarmCode = "V001" then
          let (v, r) := pyUniform (3/10) (6/10) r3
          ((t0, p0, v), r)
        else if a.alarmCode = "M001" then
          let (p, r) := pyUniform (pmax * (13/10)) (pmax * (18/10)) r3
          ((t0, p, v0), r)
        else ((t0, p0, v0), r3)
    | none => ((t0, p0, v0), r3)
  ({ temperatureC := pyRound final.1.1 2,
     powerW := pyRound final.1.2.1 1,
     vibration := pyRound final.1.2.2 3 }, final.2)

/-- The alarm descriptor copied into the emitted record (code and severity
only; the duration is dropped). -/
structure AlarmOut where
  alarmCode : String
  severity : Nat
deriving DecidableEq

/-- One emitted machine record (the per-machine payload dict; the optional
"alarm" key is the `Option` field). -/
structure MachinePayload where
  machineId : String
  status : String
  reason : String
  goodCountDelta : Nat
  ngCountDelta : Nat
  runTimeSecDelta : Nat
  idleTimeSecDelta : Nat
  stopTimeSecDelta : Nat
  cycleTimeMs : Option Nat
  sensors : Sensors
  alarm : Option AlarmOut
deriving DecidableEq

/-- The `reason_map` of the alarm override in `generate_machine_payload`. -/
def alarm_reason (code : String) : String :=
  if code = "Q001" ∨ code = "Q002" then "quality_issue"
  else if code = "M001" then "machine_fault"
  else if code = "T001" then "over_temp"
  else "high_vibration"

/-- The time-bucket attribution of `generate_machine_payload`
(`if status == "RUN": run = i elif status == "IDLE": idle = i else: stop = i`),
as a triple `(run, idle, stop)`. -/
def time_deltas (status : String) (interval_sec : Nat) : Nat × Nat × Nat :=
  if status = "RUN" then (interval_sec, 0, 0)
  else if status = "IDLE" then (0, interval_sec, 0)
  else (0, 0, interval_sec)

/-- The production-counter block of `generate_machine_payload`, guarded by
`status == "RUN"`: returns `(cycleTimeMs, good, ng)` and the advanced rng. -/
def production_block (rng : Rng) (current : DateTime) (interval_sec : Nat)
    (line : LineConfig) (status : String) (alarm : Option AlarmEvent) :
    (Option Nat × Nat × Nat) × Rng :=
  if status = "RUN" then
    let ct := compute_cycle_time_ms rng line current
    let ng_rate1 := if is_startup current then line.ng_rate * 2 else line.ng_rate
    let rated :=
      match alarm with
      | some a =>
          if a.alarmCode = "Q001" ∨ a.alarmCode = "Q002" then
            let fu := pyUniform (3/2) 3 ct.2
            (ng_rate1 * fu.1, fu.2)
          else (ng_rate1, ct.2)
      | none => (ng_rate1, ct.2)
    let gc := generate_counts rated.2 interval_sec ct.1 rated.1
    ((some ct.1, gc.1.1, gc.1.2), gc.2)
  else ((none, 0, 0), rng)

/-- Body of `generate_machine_payload` after the `select_status` call,
taking the selected `(status0, reason0)` and the rng state it left behind.
The alarm draw happens only when the pre-override status is not IDLE; a drawn
alarm overrides status to ALARM and the reason via `alarm_reason`. -/
def machine_after_status (rng1 : Rng) (current : DateTime) (interval_sec : Nat)
    (line : LineConfig) (machine_id : String) (status0 reason0 : String) :
    MachinePayload × Rng :=
  let ca := choose_alarm rng1 interval_sec
  let alarm := if status0 = "IDLE" then none else ca.1
  let r2 := if status0 = "IDLE" then rng1 else ca.2
  let status := if alarm.isSome then "ALARM" else status0
  let reason :=
    match alarm with
    | some a => alarm_reason a.alarmCode
    | none => reason0
  let td := time_deltas status interval_sec
  let pb := production_block r2 current interval_sec line status alarm
  let sens := generate_sensors pb.2 line status alarm
  ({ machineId := line.line_id ++ "-" ++ machine_id,
     status := status,
     reason := reason,
     goodCountDelta := pb.1.2.1,
     ngCountDelta := pb.1.2.2,
     runTimeSecDelta := td.1,
     idleTimeSecDelta := td.2.1,
     stopTimeSecDelta := td.2.2,
     cycleTimeMs := pb.1.1,
     sensors := sens.1,
     alarm := alarm.map (fun a => { alarmCode := a.alarmCode, severity := a.severity }) },
   sens.2)

/-- Embeds `generate_machine_payload`. -/
def generate_machine_payload (sha : String → Nat) (seedRng : Nat → Rng)
    (rng : Rng) (current : DateTime) (interval_sec : Nat) (line : LineConfig)
    (machine_id : String) : MachinePayload × Rng :=
  let sr := select_status sha seedRng rng current machine_id
  machine_after_status sr.2 current interval_sec line machine_id sr.1.1 sr.1.2

/-- One per-line group of the snapshot. -/
structure LinePayload where
  lineId : String
  lineName : String
  machines : List MachinePayload
deriving DecidableEq

/-- The top-level snapshot.  `ts` keeps the timestamp value itself (its
ISO-8601 rendering is a bijective serialization not modelled further). -/
structure Payload where
  schemaVersion : String
  factoryId : String
  ts : DateTime
  intervalSec : Nat
  lines : List LinePayload
deriving DecidableEq

/-- The inner machine loop of `generate_payload`: one shared rng threaded
through the machines in order. -/
def genMachines (sha : String → Nat) (seedRng : Nat → Rng) (rng : Rng)
    (current : DateTime) (interval_sec : Nat) (line : LineConfig) :
    List String → List MachinePayload × Rng
  | [] => ([], rng)
  | mid :: rest =>
      let p := generate_machine_payload sha seedRng rng current interval_sec line mid
      let ps := genMachines sha seedRng p.2 current interval_sec line rest
      (p.1 :: ps.1, ps.2)

/-- The outer line loop of `generate_payload`. -/
def genLines (sha : String → Nat) (seedRng : Nat → Rng) (rng : Rng)
    (current : DateTime) (interval_sec : Nat) :
    List LineConfig → List LinePayload × Rng
  | [] => ([], rng)
  | line :: rest =>
      let ms := genMachines sha seedRng rng current interval_sec line MACHINE_IDS
      let ls := genLines sha seedRng ms.2 current interval_sec rest
      ({ lineId := line.line_id, lineName := line.line_name, machines := ms.1 } :: ls.1,
       ls.2)

/-- Embeds `generate_payload` (with both arguments supplied; the `None` defaults of
the source fill in the wall clock and a fresh unseeded rng). -/
def generate_payload (sha : String → Nat) (seedRng : Nat → Rng)
    (current : DateTime) (rng : Rng) : Payload :=
  let si := select_interval_sec rng
  let ls := genLines sha seedRng si.2 current si.1 LINE_CONFIGS
  { schemaVersion := "1.0", factoryId := "F001", ts := current,
    intervalSec := si.1, lines := ls.1 }

/-- Modelled from the spec: interval selection as the spec describes it —
walk the weighted list over values 10/30/60/120/300/600 s with weights
0.05/0.10/0.70/0.10/0.04/0.01 by cumulative sum (the spec gives the values as
an unordered set; the walk order of the program's weighted list is
60, 30, 120, 10, 300, 600), return the first option whose cumulative weight
meets or exceeds the draw, falling back to the last option. -/
def spec_interval_choice (u : ℚ) : Nat :=
  if u ≤ 70/100 then 60
  else if u ≤ 80/100 then 30
  else if u ≤ 90/100 then 120
  else if u ≤ 95/100 then 10
  else if u ≤ 99/100 then 300
  else if u ≤ 1 then 600
  else 600

/-! ### Concrete instances used by witnesses and counterexamples -/

/-- A trivial hash standing in for sha256 in concrete instantiations. -/
def sha0 : String → Nat := fun _ => 0

/-- The all-zero draw stream. -/
def rng0 : Rng := ⟨fun _ => 0, 0⟩

/-- A trivial seeding function for concrete instantiations. -/
def srg0 : Nat → Rng := fun _ => rng0

def dtLunch : DateTime := ⟨⟨2024, 5, 1⟩, timeVal 12 5⟩

def dtNight : DateTime := ⟨⟨2024, 5, 1⟩, timeVal 2 0⟩

def dtMorning : DateTime := ⟨⟨2024, 5, 1⟩, timeVal 10 0⟩

def dummySensors : Sensors := ⟨0, 0, 0⟩

def dummyMachine : MachinePayload := ⟨"", "", "", 0, 0, 0, 0, 0, none, dummySensors, none⟩

def dummyLine : LinePayload := ⟨"", "", []⟩

/-! ### Helper lemmas about the building blocks -/

theorem time_deltas_sum (s : String) (i : Nat) :
    (time_deltas s i).1 + (time_deltas s i).2.1 + (time_deltas s i).2.2 = i := by
  unfold time_deltas
  split_ifs <;> simp

theorem time_deltas_one_nonzero (s : String) (i : Nat) (hi : i ≠ 0) :
    ((time_deltas s i).1 ≠ 0 ∧ (time_deltas s i).2.1 = 0 ∧ (time_deltas s i).2.2 = 0) ∨
    ((time_deltas s i).1 = 0 ∧ (time_deltas s i).2.1 ≠ 0 ∧ (time_deltas s i).2.2 = 0) ∨
    ((time_deltas s i).1 = 0 ∧ (time_deltas s i).2.1 = 0 ∧ (time_deltas s i).2.2 ≠ 0) := by
  unfold time_deltas
  split_ifs <;> simp [hi]

theorem time_deltas_alarm (i : Nat) :
    time_deltas "ALARM" i = (0, 0, i) := by
  simp [time_deltas]

theorem production_block_isSome_iff (rng : Rng) (current : DateTime)
    (interval_sec : Nat) (line : LineConfig) (s : String) (a : Option AlarmEvent) :
    (production_block rng current interval_sec line s a).1.1.isSome ↔ s = "RUN" := by
  unfold production_block
  split_ifs with h <;> simp [h]

theorem production_block_not_run (rng : Rng) (current : DateTime)
    (interval_sec : Nat) (line : LineConfig) (s : String) (a : Option AlarmEvent)
    (h : s ≠ "RUN") :
    (production_block rng current interval_sec line s a).1 = (none, 0, 0) := by
  simp [production_block, h]

theorem mas_deltas_sum (r1 : Rng) (t : DateTime) (i : Nat) (line : LineConfig)
    (mid s0 r0 : String) :
    (machine_after_status r1 t i line mid s0 r0).1.runTimeSecDelta +
      (machine_after_status r1 t i line mid s0 r0).1.idleTimeSecDelta +
      (machine_after_status r1 t i line mid s0 r0).1.stopTimeSecDelta = i := by
  simp only [machine_after_status]
  exact time_deltas_sum _ _

theorem mas_deltas_one_nonzero (r1 : Rng) (t : DateTime) (i : Nat)
    (line : LineConfig) (mid s0 r0 : String) (hi : i ≠ 0) :
    ((machine_after_status r1 t i line mid s0 r0).1.runTimeSecDelta ≠ 0 ∧
      (machine_after_status r1 t i line mid s0 r0).1.idleTimeSecDelta = 0 ∧
      (machine_after_status r1 t i line mid s0 r0).1.stopTimeSecDelta = 0) ∨
    ((machine_after_status r1 t i line mid s0 r0).1.runTimeSecDelta = 0 ∧
      (machine_after_status r1 t i line mid s0 r0).1.idleTimeSecDelta ≠ 0 ∧
      (machine_after_status r1 t i line mid s0 r0).1.stopTimeSecDelta = 0) ∨
    ((machine_after_status r1 t i line mid s0 r0).1.runTimeSecDelta = 0 ∧
      (machine_after_status r1 t i line mid s0 r0).1.idleTimeSecDelta = 0 ∧
      (machine_after_status r1 t i line mid s0 r0).1.stopTimeSecDelta ≠ 0) := by
  simp only [machine_after_status]
  exact time_deltas_one_nonzero _ _ hi

theorem mas_cycle_iff (r1 : Rng) (t : DateTime) (i : Nat) (line : LineConfig)
    (mid s0 r0 : String) :
    (machine_after_status r1 t i line mid s0 r0).1.cycleTimeMs.isSome ↔
      (machine_after_status r1 t i line mid s0 r0).1.status = "RUN" := by
  simp only [machine_after_status]
  exact production_block_isSome_iff _ _ _ _ _ _

theorem mas_alarm_fields (r1 : Rng) (t : DateTime) (i : Nat) (line : LineConfig)
    (mid s0 r0 : String)
    (h : (machine_after_status r1 t i line mid s0 r0).1.alarm.isSome) :
    (machine_after_status r1 t i line mid s0 r0).1.status = "ALARM" ∧
      (machine_after_status r1 t i line mid s0 r0).1.goodCountDelta = 0 ∧
      (machine_after_status r1 t i line mid s0 r0).1.ngCountDelta = 0 := by
  by_cases hs : s0 = "IDLE" <;> rcases hca : (choose_alarm r1 i).1 with _ | a
  · simp [machine_after_status, hs, hca] at h
  · simp [machine_after_status, hs, hca] at h
  · simp [machine_after_status, hs, hca] at h
  · have hpb := production_block_not_run ((choose_alarm r1 i).2) t i line
      "ALARM" (some a) (by decide)
    simp [machine_after_status, hs, hca, hpb]

theorem mas_status_alarm_deltas (r1 : Rng) (t : DateTime) (i : Nat)
    (line : LineConfig) (mid s0 r0 : String)
    (h : (machine_after_status r1 t i line mid s0 r0).1.status = "ALARM") :
    (machine_after_status r1 t i line mid s0 r0).1.runTimeSecDelta = 0 ∧
      (machine_after_status r1 t i line mid s0 r0).1.idleTimeSecDelta = 0 ∧
      (machine_after_status r1 t i line mid s0 r0).1.stopTimeSecDelta = i := by
  simp only [machine_after_status] at h ⊢
  rw [h]
  simp [time_deltas_alarm]

theorem mas_idle (r1 : Rng) (t : DateTime) (i : Nat) (line : LineConfig)
    (mid r0 : String) :
    (machine_after_status r1 t i line mid "IDLE" r0).1.status = "IDLE" ∧
      (machine_after_status r1 t i line mid "IDLE" r0).1.reason = r0 ∧
      (machine_after_status r1 t i line mid "IDLE" r0).1.runTimeSecDelta = 0 ∧
      (machine_after_status r1 t i line mid "IDLE" r0).1.idleTimeSecDelta = i ∧
      (machine_after_status r1 t i line mid "IDLE" r0).1.stopTimeSecDelta = 0 ∧
      (machine_after_status r1 t i line mid "IDLE" r0).1.cycleTimeMs = none := by
  simp [machine_after_status, time_deltas, production_block]

theorem mas_run (r1 : Rng) (t : DateTime) (i : Nat) (line : LineConfig)
    (mid : String) :
    ((machine_after_status r1 t i line mid "RUN" "normal_run").1.status = "RUN" ∧
      (machine_after_status r1 t i line mid "RUN" "normal_run").1.reason = "normal_run") ∨
      (machine_after_status r1 t i line mid "RUN" "normal_run").1.status = "ALARM" := by
  rcases hca : (choose_alarm r1 i).1 with _ | a
  · left
    constructor <;> simp [machine_after_status, hca]
  · right
    simp [machine_after_status, hca]

theorem select_status_lunch (sha : String → Nat) (seedRng : Nat → Rng)
    (rng : Rng) (t : DateTime) (mid : String) (h : is_lunch_break t) :
    select_status sha seedRng rng t mid = (("IDLE", "lunch_break"), rng) := by
  simp [select_status, h]

theorem select_status_off_shift (sha : String → Nat) (seedRng : Nat → Rng)
    (rng : Rng) (t : DateTime) (mid : String)
    (h1 : ¬ is_lunch_break t) (h2 : is_off_shift t) :
    (select_status sha seedRng rng t mid).1 = ("RUN", "normal_run") ∨
      (select_status sha seedRng rng t mid).1 = ("IDLE", "off_shift") := by
  simp only [select_status, h1, h2, Bool.false_eq_true, if_false, if_true]
  split_ifs <;> simp

theorem select_interval_sec_mem (rng : Rng) :
    (select_interval_sec rng).1 ∈ ([10, 30, 60, 120, 300, 600] : List Nat) := by
  simp only [select_interval_sec, pyRandom, Rng.next, INTERVAL_WEIGHTS, walkCumulative,
    lastValue, List.getLast?]
  split_ifs <;> simp

theorem select_interval_sec_pos (rng : Rng) : 0 < (select_interval_sec rng).1 := by
  have h := select_interval_sec_mem rng
  simp only [List.mem_cons, List.not_mem_nil, or_false] at h
  rcases h with h | h | h | h | h | h <;> omega

/-! ### Lifting to `generate_machine_payload` and to whole snapshots -/

theorem genMachines_mem (sha : String → Nat) (seedRng : Nat → Rng)
    (t : DateTime) (i : Nat) (line : LineConfig) (mids : List String) :
    ∀ rng : Rng, ∀ m ∈ (genMachines sha seedRng rng t i line mids).1,
      ∃ (r' : Rng) (mid : String),
        m = (generate_machine_payload sha seedRng r' t i line mid).1 := by
  induction mids with
  | nil => intro rng m hm; simp [genMachines] at hm
  | cons mid rest ih =>
      intro rng m hm
      simp only [genMachines, List.mem_cons] at hm
      rcases hm with rfl | hm
      · exact ⟨rng, mid, rfl⟩
      · exact ih _ m hm

theorem genLines_mem (sha : String → Nat) (seedRng : Nat → Rng)
    (t : DateTime) (i : Nat) (cfgs : List LineConfig) :
    ∀ rng : Rng, ∀ lp ∈ (genLines sha seedRng rng t i cfgs).1, ∀ m ∈ lp.machines,
      ∃ (r' : Rng) (line : LineConfig) (mid : String),
        m = (generate_machine_payload sha seedRng r' t i line mid).1 := by
  induction cfgs with
  | nil => intro rng lp hlp; simp [genLines] at hlp
  | cons line rest ih =>
      intro rng lp hlp m hm
      simp only [genLines, List.mem_cons] at hlp
      rcases hlp with rfl | hlp
      · obtain ⟨r', mid, hmid⟩ := genMachines_mem sha seedRng t i line MACHINE_IDS rng m hm
        exact ⟨r', line, mid, hmid⟩
      · exact ih _ lp hlp m hm

theorem payload_intervalSec (sha : String → Nat) (seedRng : Nat → Rng)
    (t : DateTime) (rng : Rng) :
    (generate_payload sha seedRng t rng).intervalSec = (select_interval_sec rng).1 :=
  rfl

theorem payload_mem (sha : String → Nat) (seedRng : Nat → Rng) (t : DateTime)
    (rng : Rng) :
    ∀ lp ∈ (generate_payload sha seedRng t rng).lines, ∀ m ∈ lp.machines,
      ∃ (r' : Rng) (line : LineConfig) (mid : String),
        m = (generate_machine_payload sha seedRng r' t
              (generate_payload sha seedRng t rng).intervalSec line mid).1 := by
  intro lp hlp m hm
  exact genLines_mem sha seedRng t (select_interval_sec rng).1 LINE_CONFIGS
    (select_interval_sec rng).2 lp hlp m hm

theorem pyRandint_ge (a b : Nat) (r : Rng) : a ≤ (pyRandint a b r).1 := by
  simp only [pyRandint, Rng.next]
  omega

theorem pyRandint_le (a b : Nat) (r : Rng) (h : a ≤ b) : (pyRandint a b r).1 ≤ b := by
  simp only [pyRandint, Rng.next]
  omega

/-! ### The claims -/

/-- C1: for every timestamp and every seed, two invocations of
`generate_payload` with the same timestamp and equally-seeded random sources
(same draw stream, same cursor) produce identical output records. -/
theorem generate_payload_deterministic (sha : String → Nat) (seedRng : Nat → Rng)
    (t : DateTime) (r1 r2 : Rng)
    (hs : ∀ n, r1.stream n = r2.stream n) (hi : r1.idx = r2.idx) :
    generate_payload sha seedRng t r1 = generate_payload sha seedRng t r2 := by
  obtain ⟨s1, i1⟩ := r1
  obtain ⟨s2, i2⟩ := r2
  have hfun : s1 = s2 := funext hs
  simp only at hi
  subst hfun
  subst hi
  rfl

theorem generate_payload_deterministic_witness :
    generate_payload sha0 srg0 dtLunch rng0 = generate_payload sha0 srg0 dtLunch rng0 :=
  generate_payload_deterministic sha0 srg0 dtLunch rng0 rng0 (fun _ => rfl) rfl

/-- C2 counterexample: a concrete machine record with final status ALARM in
which `stopTimeSecDelta` equals the full interval (600), so the three
time-bucket deltas are not all zero. -/
theorem alarm_time_counterexample :
    (generate_machine_payload sha0 srg0 rng0 dtMorning 600 cfgL1 "M01").1.status = "ALARM" ∧
    (generate_machine_payload sha0 srg0 rng0 dtMorning 600 cfgL1 "M01").1.stopTimeSecDelta = 600 ∧
    (generate_machine_payload sha0 srg0 rng0 dtMorning 600 cfgL1 "M01").1.stopTimeSecDelta ≠ 0 := by
  with_unfolding_all decide

/-- C2 (amended): for every machine record whose final status is ALARM, the
run and idle time deltas are zero and the full interval is attributed to the
stop-time bucket (`stopTimeSecDelta = interval_sec`). -/
theorem alarm_stop_time_attribution (sha : String → Nat) (seedRng : Nat → Rng)
    (rng : Rng) (t : DateTime) (i : Nat) (line : LineConfig) (mid : String)
    (h : (generate_machine_payload sha seedRng rng t i line mid).1.status = "ALARM") :
    (generate_machine_payload sha seedRng rng t i line mid).1.runTimeSecDelta = 0 ∧
    (generate_machine_payload sha seedRng rng t i line mid).1.idleTimeSecDelta = 0 ∧
    (generate_machine_payload sha seedRng rng t i line mid).1.stopTimeSecDelta = i := by
  simp only [generate_machine_payload] at h ⊢
  exact mas_status_alarm_deltas _ _ _ _ _ _ _ h

theorem alarm_stop_time_attribution_witness :
    (generate_machine_payload sha0 srg0 rng0 dtMorning 600 cfgL1 "M01").1.runTimeSecDelta = 0 ∧
    (generate_machine_payload sha0 srg0 rng0 dtMorning 600 cfgL1 "M01").1.idleTimeSecDelta = 0 ∧
    (generate_machine_payload sha0 srg0 rng0 dtMorning 600 cfgL1 "M01").1.stopTimeSecDelta = 600 :=
  alarm_stop_time_attribution sha0 srg0 rng0 dtMorning 600 cfgL1 "M01"
    (by with_unfolding_all decide)

/-- C10: for every machine record that contains an alarm field, the
production counters are both zero and the status is ALARM: the alarm
override happens before the production-counter branch tests for RUN. -/
theorem alarm_suppresses_counts (sha : String → Nat) (seedRng : Nat → Rng)
    (rng : Rng) (t : DateTime) (i : Nat) (line : LineConfig) (mid : String)
    (h : (generate_machine_payload sha seedRng rng t i line mid).1.alarm.isSome) :
    (generate_machine_payload sha seedRng rng t i line mid).1.goodCountDelta = 0 ∧
    (generate_machine_payload sha seedRng rng t i line mid).1.ngCountDelta = 0 ∧
    (generate_machine_payload sha seedRng rng t i line mid).1.status = "ALARM" := by
  simp only [generate_machine_payload] at h ⊢
  obtain ⟨h1, h2, h3⟩ := mas_alarm_fields _ _ _ _ _ _ _ h
  exact ⟨h2, h3, h1⟩

theorem alarm_suppresses_counts_witness :
    (generate_machine_payload sha0 srg0 rng0 dtMorning 600 cfgL1 "M01").1.goodCountDelta = 0 ∧
    (generate_machine_payload sha0 srg0 rng0 dtMorning 600 cfgL1 "M01").1.ngCountDelta = 0 ∧
    (generate_machine_payload sha0 srg0 rng0 dtMorning 600 cfgL1 "M01").1.status = "ALARM" :=
  alarm_suppresses_counts sha0 srg0 rng0 dtMorning 600 cfgL1 "M01"
    (by with_unfolding_all decide)

theorem headD_mem_of_get? {α : Type} (l : List α) (d : α)
    (h : l.get? 0 = some (l.headD d)) : l.headD d ∈ l :=
  List.get?_mem h

/-- C4: in every synthesized snapshot, a machine record's `cycleTimeMs` is
non-null if and only if its status is RUN. -/
theorem cycle_time_presence (sha : String → Nat) (seedRng : Nat → Rng)
    (t : DateTime) (rng : Rng) :
    ∀ lp ∈ (generate_payload sha seedRng t rng).lines, ∀ m ∈ lp.machines,
      m.cycleTimeMs ≠ none ↔ m.status = "RUN" := by
  intro lp hlp m hm
  obtain ⟨r', line, mid, rfl⟩ := payload_mem sha seedRng t rng lp hlp m hm
  rw [Option.ne_none_iff_isSome]
  simp only [generate_machine_payload]
  exact mas_cycle_iff _ _ _ _ _ _ _

theorem cycle_time_presence_witness :
    ((((generate_payload sha0 srg0 dtLunch rng0).lines.headD dummyLine).machines.headD
        dummyMachine).cycleTimeMs ≠ none ↔
      (((generate_payload sha0 srg0 dtLunch rng0).lines.headD dummyLine).machines.headD
        dummyMachine).status = "RUN") :=
  cycle_time_presence sha0 srg0 dtLunch rng0 _ (headD_mem_of_get? _ dummyLine rfl)
    _ (headD_mem_of_get? _ dummyMachine rfl)

/-- C3: in every synthesized snapshot, every machine record with status RUN,
IDLE or STOP has its three time deltas summing to the snapshot's
`intervalSec`, with exactly one of the three non-zero. -/
theorem time_accounting (sha : String → Nat) (seedRng : Nat → Rng)
    (t : DateTime) (rng : Rng) :
    ∀ lp ∈ (generate_payload sha seedRng t rng).lines, ∀ m ∈ lp.machines,
      (m.status = "RUN" ∨ m.status = "IDLE" ∨ m.status = "STOP") →
      m.runTimeSecDelta + m.idleTimeSecDelta + m.stopTimeSecDelta =
          (generate_payload sha seedRng t rng).intervalSec ∧
        ((m.runTimeSecDelta ≠ 0 ∧ m.idleTimeSecDelta = 0 ∧ m.stopTimeSecDelta = 0) ∨
         (m.runTimeSecDelta = 0 ∧ m.idleTimeSecDelta ≠ 0 ∧ m.stopTimeSecDelta = 0) ∨
         (m.runTimeSecDelta = 0 ∧ m.idleTimeSecDelta = 0 ∧ m.stopTimeSecDelta ≠ 0)) := by
  intro lp hlp m hm _hstatus
  obtain ⟨r', line, mid, rfl⟩ := payload_mem sha seedRng t rng lp hlp m hm
  rw [payload_intervalSec]
  have hpos := select_interval_sec_pos rng
  constructor
  · simp only [generate_machine_payload, payload_intervalSec]
    exact mas_deltas_sum _ _ _ _ _ _ _
  · simp only [generate_machine_payload, payload_intervalSec]
    exact mas_deltas_one_nonzero _ _ _ _ _ _ _ (by omega)

theorem time_accounting_witness :
    (((generate_payload sha0 srg0 dtLunch rng0).lines.headD dummyLine).machines.headD
          dummyMachine).runTimeSecDelta +
        (((generate_payload sha0 srg0 dtLunch rng0).lines.headD dummyLine).machines.headD
          dummyMachine).idleTimeSecDelta +
        (((generate_payload sha0 srg0 dtLunch rng0).lines.headD dummyLine).machines.headD
          dummyMachine).stopTimeSecDelta =
        (generate_payload sha0 srg0 dtLunch rng0).intervalSec :=
  (time_accounting sha0 srg0 dtLunch rng0 _ (headD_mem_of_get? _ dummyLine rfl)
    _ (headD_mem_of_get? _ dummyMachine rfl) (by with_unfolding_all decide)).1

/-- C6: for every random source and date, synthesizing a snapshot at 12:05
local time yields, for every machine, status IDLE with reason "lunch_break",
`idleTimeSecDelta` equal to `intervalSec` (run and stop deltas zero), and
`cycleTimeMs` null. -/
theorem lunch_break_scenario (sha : String → Nat) (seedRng : Nat → Rng)
    (d : Date) (rng : Rng) :
    ∀ lp ∈ (generate_payload sha seedRng ⟨d, timeVal 12 5⟩ rng).lines,
      ∀ m ∈ lp.machines,
        m.status = "IDLE" ∧ m.reason = "lunch_break" ∧
        m.idleTimeSecDelta = (generate_payload sha seedRng ⟨d, timeVal 12 5⟩ rng).intervalSec ∧
        m.runTimeSecDelta = 0 ∧ m.stopTimeSecDelta = 0 ∧ m.cycleTimeMs = none := by
  intro lp hlp m hm
  obtain ⟨r', line, mid, rfl⟩ :=
    payload_mem sha seedRng ⟨d, timeVal 12 5⟩ rng lp hlp m hm
  have hlunch : is_lunch_break ⟨d, timeVal 12 5⟩ = true := by
    simp only [is_lunch_break, jst_time_in_range, timeVal]
    norm_num
  simp only [generate_machine_payload,
    select_status_lunch sha seedRng r' ⟨d, timeVal 12 5⟩ mid hlunch]
  obtain ⟨h1, h2, h3, h4, h5, h6⟩ :=
    mas_idle r' ⟨d, timeVal 12 5⟩
      (generate_payload sha seedRng ⟨d, timeVal 12 5⟩ rng).intervalSec line mid "lunch_break"
  exact ⟨h1, h2, h4, h3, h5, h6⟩

theorem lunch_break_scenario_witness :
    (((generate_payload sha0 srg0 ⟨⟨2024, 5, 1⟩, timeVal 12 5⟩ rng0).lines.headD
          dummyLine).machines.headD dummyMachine).status = "IDLE" ∧
      (((generate_payload sha0 srg0 ⟨⟨2024, 5, 1⟩, timeVal 12 5⟩ rng0).lines.headD
          dummyLine).machines.headD dummyMachine).reason = "lunch_break" ∧
      (((generate_payload sha0 srg0 ⟨⟨2024, 5, 1⟩, timeVal 12 5⟩ rng0).lines.headD
          dummyLine).machines.headD dummyMachine).idleTimeSecDelta =
        (generate_payload sha0 srg0 ⟨⟨2024, 5, 1⟩, timeVal 12 5⟩ rng0).intervalSec ∧
      (((generate_payload sha0 srg0 ⟨⟨2024, 5, 1⟩, timeVal 12 5⟩ rng0).lines.headD
          dummyLine).machines.headD dummyMachine).runTimeSecDelta = 0 ∧
      (((generate_payload sha0 srg0 ⟨⟨2024, 5, 1⟩, timeVal 12 5⟩ rng0).lines.headD
          dummyLine).machines.headD dummyMachine).stopTimeSecDelta = 0 ∧
      (((generate_payload sha0 srg0 ⟨⟨2024, 5, 1⟩, timeVal 12 5⟩ rng0).lines.headD
          dummyLine).machines.headD dummyMachine).cycleTimeMs = none :=
  lunch_break_scenario sha0 srg0 ⟨2024, 5, 1⟩ rng0 _ (headD_mem_of_get? _ dummyLine rfl)
    _ (headD_mem_of_get? _ dummyMachine rfl)

/-- C5 counterexample: at 02:00 local time there is a random source (the
all-zero stream) under which a machine of the snapshot ends with status
ALARM — outside {RUN, IDLE} — because an off-shift RUN machine is still
subject to the alarm draw. -/
theorem off_shift_alarm_counterexample :
    ∃ lp ∈ (generate_payload sha0 srg0 dtNight rng0).lines,
      ∃ m ∈ lp.machines, ¬(m.status = "RUN" ∨ m.status = "IDLE") := by
  refine ⟨(generate_payload sha0 srg0 dtNight rng0).lines.headD dummyLine,
    headD_mem_of_get? _ dummyLine rfl,
    ((generate_payload sha0 srg0 dtNight rng0).lines.headD dummyLine).machines.headD
      dummyMachine,
    headD_mem_of_get? _ dummyMachine rfl, ?_⟩
  with_unfolding_all decide

/-- C5 (amended): at 02:00 local time, for every random source, every machine
of the snapshot has status RUN with reason "normal_run", or status IDLE with
reason "off_shift", or status ALARM (when the alarm draw fires on an
off-shift RUN machine); and its three time deltas sum to `intervalSec`. -/
theorem off_shift_scenario (sha : String → Nat) (seedRng : Nat → Rng)
    (d : Date) (rng : Rng) :
    ∀ lp ∈ (generate_payload sha seedRng ⟨d, timeVal 2 0⟩ rng).lines,
      ∀ m ∈ lp.machines,
        ((m.status = "RUN" ∧ m.reason = "normal_run") ∨
         (m.status = "IDLE" ∧ m.reason = "off_shift") ∨
         m.status = "ALARM") ∧
        m.runTimeSecDelta + m.idleTimeSecDelta + m.stopTimeSecDelta =
          (generate_payload sha seedRng ⟨d, timeVal 2 0⟩ rng).intervalSec := by
  intro lp hlp m hm
  obtain ⟨r', line, mid, rfl⟩ :=
    payload_mem sha seedRng ⟨d, timeVal 2 0⟩ rng lp hlp m hm
  have h1 : is_lunch_break ⟨d, timeVal 2 0⟩ = false := by
    simp only [is_lunch_break, jst_time_in_range, timeVal]
    norm_num
  have h2 : is_off_shift ⟨d, timeVal 2 0⟩ = true := by
    simp only [is_off_shift, jst_time_in_range, timeVal]
    norm_num
  constructor
  · rcases select_status_off_shift sha seedRng r' ⟨d, timeVal 2 0⟩ mid
      (by simp [h1]) h2 with hsel | hsel
    · simp only [generate_machine_payload, hsel]
      rcases mas_run (select_status sha seedRng r' ⟨d, timeVal 2 0⟩ mid).2
        ⟨d, timeVal 2 0⟩
        (generate_payload sha seedRng ⟨d, timeVal 2 0⟩ rng).intervalSec line mid with
        ⟨ha, hb⟩ | hc
      · exact Or.inl ⟨ha, hb⟩
      · exact Or.inr (Or.inr hc)
    · simp only [generate_machine_payload, hsel]
      obtain ⟨ha, hb, _⟩ := mas_idle (select_status sha seedRng r' ⟨d, timeVal 2 0⟩ mid).2
        ⟨d, timeVal 2 0⟩
        (generate_payload sha seedRng ⟨d, timeVal 2 0⟩ rng).intervalSec line mid "off_shift"
      exact Or.inr (Or.inl ⟨ha, hb⟩)
  · simp only [generate_machine_payload]
    exact mas_deltas_sum _ _ _ _ _ _ _

theorem off_shift_scenario_witness :
    ((((generate_payload sha0 srg0 ⟨⟨2024, 5, 1⟩, timeVal 2 0⟩ rng0).lines.headD
          dummyLine).machines.headD dummyMachine).status = "RUN" ∧
      (((generate_payload sha0 srg0 ⟨⟨2024, 5, 1⟩, timeVal 2 0⟩ rng0).lines.headD
          dummyLine).machines.headD dummyMachine).reason = "normal_run" ∨
      (((generate_payload sha0 srg0 ⟨⟨2024, 5, 1⟩, timeVal 2 0⟩ rng0).lines.headD
          dummyLine).machines.headD dummyMachine).status = "IDLE" ∧
      (((generate_payload sha0 srg0 ⟨⟨2024, 5, 1⟩, timeVal 2 0⟩ rng0).lines.headD
          dummyLine).machines.headD dummyMachine).reason = "off_shift" ∨
      (((generate_payload sha0 srg0 ⟨⟨2024, 5, 1⟩, timeVal 2 0⟩ rng0).lines.headD
          dummyLine).machines.headD dummyMachine).status = "ALARM") ∧
      (((generate_payload sha0 srg0 ⟨⟨2024, 5, 1⟩, timeVal 2 0⟩ rng0).lines.headD
          dummyLine).machines.headD dummyMachine).runTimeSecDelta +
        (((generate_payload sha0 srg0 ⟨⟨2024, 5, 1⟩, timeVal 2 0⟩ rng0).lines.headD
          dummyLine).machines.headD dummyMachine).idleTimeSecDelta +
        (((generate_payload sha0 srg0 ⟨⟨2024, 5, 1⟩, timeVal 2 0⟩ rng0).lines.headD
          dummyLine).machines.headD dummyMachine).stopTimeSecDelta =
        (generate_payload sha0 srg0 ⟨⟨2024, 5, 1⟩, timeVal 2 0⟩ rng0).intervalSec :=
  off_shift_scenario sha0 srg0 ⟨2024, 5, 1⟩ rng0 _ (headD_mem_of_get? _ dummyLine rfl)
    _ (headD_mem_of_get? _ dummyMachine rfl)

/-- C7: for every calendar date and refill-eligible machine, the refill
window is a function of the date and machine id alone (no ambient rng is
consumed): the start offset is at most 2 minutes past 15:30, the duration is
between 3 and 7 minutes, the active check is exactly membership of the
wall-clock time of day in that window, and any two queries on the same date
with the same time of day agree. -/
theorem refill_window_deterministic (sha : String → Nat) (seedRng : Nat → Rng)
    (d : Date) (mid : String) (hmid : mid ∈ MATERIAL_REFILL_TARGETS) :
    (refill_window sha seedRng d mid).1 ≤ 2 ∧
    3 ≤ (refill_window sha seedRng d mid).2 ∧
    (refill_window sha seedRng d mid).2 ≤ 7 ∧
    (∀ t : DateTime, t.date = d →
      (is_material_refill_window sha seedRng t mid = true ↔
        timeVal 15 30 + (refill_window sha seedRng d mid).1 * 60 ≤ t.tod ∧
        t.tod < timeVal 15 30 + (refill_window sha seedRng d mid).1 * 60 +
          (refill_window sha seedRng d mid).2 * 60)) ∧
    (∀ t1 t2 : DateTime, t1.date = d → t2.date = d → t1.tod = t2.tod →
      is_material_refill_window sha seedRng t1 mid =
        is_material_refill_window sha seedRng t2 mid) := by
  refine ⟨?_, ?_, ?_, ?_, ?_⟩
  · simp only [refill_window]
    exact pyRandint_le 0 2 _ (by omega)
  · simp only [refill_window]
    exact pyRandint_ge 3 7 _
  · simp only [refill_window]
    exact pyRandint_le 3 7 _ (by omega)
  · intro t ht
    simp only [is_material_refill_window, hmid, if_true, ht, decide_eq_true_eq]
  · intro t1 t2 ht1 ht2 htod
    simp only [is_material_refill_window, hmid, if_true, ht1, ht2, htod]

theorem refill_window_deterministic_witness :
    (refill_window sha0 srg0 ⟨2024, 5, 1⟩ "M02").1 ≤ 2 ∧
    3 ≤ (refill_window sha0 srg0 ⟨2024, 5, 1⟩ "M02").2 ∧
    (refill_window sha0 srg0 ⟨2024, 5, 1⟩ "M02").2 ≤ 7 :=
  ⟨(refill_window_deterministic sha0 srg0 ⟨2024, 5, 1⟩ "M02" (by decide)).1,
   (refill_window_deterministic sha0 srg0 ⟨2024, 5, 1⟩ "M02" (by decide)).2.1,
   (refill_window_deterministic sha0 srg0 ⟨2024, 5, 1⟩ "M02" (by decide)).2.2.1⟩

/-- C8: for every draw u in [0,1), the selected reporting interval equals the
spec's cumulative-sum walk over the weighted interval list (values
10/30/60/120/300/600 s, weights 0.05/0.10/0.70/0.10/0.04/0.01, walked in the
program's list order), and it is one of the six listed values. -/
theorem interval_selection_matches_spec (r : Rng)
    (_h0 : 0 ≤ r.stream r.idx) (_h1 : r.stream r.idx < 1) :
    (select_interval_sec r).1 = spec_interval_choice (r.stream r.idx) ∧
    (select_interval_sec r).1 ∈ ([10, 30, 60, 120, 300, 600] : List Nat) := by
  refine ⟨?_, select_interval_sec_mem r⟩
  simp only [select_interval_sec, pyRandom, Rng.next, INTERVAL_WEIGHTS,
    walkCumulative, lastValue, List.getLast?, spec_interval_choice]
  norm_num
  split_ifs <;> simp

theorem interval_selection_matches_spec_witness :
    (select_interval_sec rng0).1 = spec_interval_choice (rng0.stream rng0.idx) ∧
    (select_interval_sec rng0).1 ∈ ([10, 30, 60, 120, 300, 600] : List Nat) :=
  interval_selection_matches_spec rng0 (by norm_num [rng0])
    (by norm_num [rng0])

/-- A line profile with inverted (min > max) ranges, as a probe of
construction-time validation. -/
def badLineConfig : LineConfig :=
  { line_id := "LX", line_name := "inverted",
    cycle_time_range_ms := (3500, 2500), ng_rate := 3/1000,
    temp_range_c := (45, 35), power_range_w := (1200, 700),
    vibration_range := (25/100, 5/100) }

/-- C9 counterexample: a line profile whose cycle-time, temperature, power
and vibration ranges are all inverted is constructed without any error and is
usable — synthesis on it yields a complete machine record. -/
theorem line_config_no_validation_counterexample :
    badLineConfig.cycle_time_range_ms.2 < badLineConfig.cycle_time_range_ms.1 ∧
    badLineConfig.temp_range_c.2 < badLineConfig.temp_range_c.1 ∧
    badLineConfig.power_range_w.2 < badLineConfig.power_range_w.1 ∧
    badLineConfig.vibration_range.2 < badLineConfig.vibration_range.1 ∧
    (generate_machine_payload sha0 srg0 rng0 dtMorning 600 badLineConfig "M01").1.machineId =
      "LX-M01" ∧
    (generate_machine_payload sha0 srg0 rng0 dtMorning 600 badLineConfig "M01").1.status =
      "ALARM" := by
  with_unfolding_all decide

/-- C9 (amended): construction of a line profile performs no invariant
validation (an inverted-range profile is accepted and flows through
synthesis, see the counterexample); however, every profile in the shipped
`LINE_CONFIGS` satisfies min < max for its cycle-time, temperature, power and
vibration ranges. -/
theorem line_configs_ranges_valid :
    ∀ cfg ∈ LINE_CONFIGS,
      cfg.cycle_time_range_ms.1 < cfg.cycle_time_range_ms.2 ∧
      cfg.temp_range_c.1 < cfg.temp_range_c.2 ∧
      cfg.power_range_w.1 < cfg.power_range_w.2 ∧
      cfg.vibration_range.1 < cfg.vibration_range.2 := by
  intro cfg h
  simp only [LINE_CONFIGS, List.mem_cons, List.not_mem_nil, or_false] at h
  rcases h with rfl | rfl | rfl <;> with_unfolding_all decide

theorem line_configs_ranges_valid_witness :
    cfgL1.cycle_time_range_ms.1 < cfgL1.cycle_time_range_ms.2 ∧
    cfgL1.temp_range_c.1 < cfgL1.temp_range_c.2 ∧
    cfgL1.power_range_w.1 < cfgL1.power_range_w.2 ∧
    cfgL1.vibration_range.1 < cfgL1.vibration_range.2 :=
  line_configs_ranges_valid cfgL1 (by simp [LINE_CONFIGS])
